import Mathlib

/-!
Shallow embedding of `src/services/nowpayments.py`: two thin HTTP client
wrappers, a CoinGecko price converter (`convert_to_crypto`) with a bounded
retry loop, and a NOWPayments client (`create_invoice`, `get_payment_status`).

Modelling conventions:
* Python `Decimal` values are modelled as exact rationals (`ℚ`).  The default
  28-significant-digit arithmetic context of the `decimal` module is not
  modelled (division is exact here); quantization uses the default
  `ROUND_HALF_EVEN` rule, modelled by `roundHalfEven`.
* JSON leaf values are modelled by `JVal` (null, booleans, integers and
  strings); JSON fractional numbers, nested containers in leaf position and
  non-ASCII case mapping are outside the modelled domain.
* `Decimal(str(x))` is modelled by `parseDecimal (pyStr x)`.  The parser
  accepts sign / digits / decimal point / exponent literals; the special
  values NaN and Infinity, underscores and surrounding whitespace are outside
  the modelled domain.
* `float(x)` on a positive in-range `Decimal` is modelled by `floatRound`:
  correctly rounded (round-to-nearest, ties-to-even) conversion to a binary64
  significand of 53 bits; overflow and subnormals are outside the modelled
  domain.
* The HTTP world is passed in explicitly: each client call receives the
  response(s) the network would produce, and the retry loop receives one
  response per attempt.  Sleeps are counted as events (each is one fixed
  `RETRY_DELAY`); `MAX_RETRIES` is a parameter, since `config.py` only
  supplies opaque configured values.
-/

/-- A JSON leaf value as produced by `response.json()`, restricted to the
null / boolean / integer / string domain. -/
inductive JVal : Type where
  | jnull : JVal
  | jbool : Bool → JVal
  | jint : ℤ → JVal
  | jstr : String → JVal
deriving DecidableEq, Repr

/-- Python truthiness of a `JVal` (`bool(x)`): `None`, `False`, `0` and the
empty string are falsy, everything else in the domain is truthy. -/
def JVal.truthy : JVal → Bool
  | .jnull => false
  | .jbool b => b
  | .jint n => n ≠ 0
  | .jstr s => s ≠ ""

/-- Python `str(x)` on a `JVal`: `str(None) = "None"`, `str(True) = "True"`,
`str(False) = "False"`, integers print in decimal, strings are unchanged. -/
def pyStr : JVal → String
  | .jnull => "None"
  | .jbool b => if b then "True" else "False"
  | .jint n => toString n
  | .jstr s => s

/-- A single-quote character as a string (used by the Python `repr` model). -/
def pyQuote : String := String.singleton (Char.ofNat 39)

/-- Python `repr(x)` on a `JVal`: like `str` except strings are quoted. -/
def reprJVal : JVal → String
  | .jnull => "None"
  | .jbool b => if b then "True" else "False"
  | .jint n => toString n
  | .jstr s => pyQuote ++ s ++ pyQuote

/-- Python `repr` of a dict with string keys, as interpolated by an f-string
such as `f"... \x7bdata\x7d"`. -/
def reprPayload (d : List (String × JVal)) : String :=
  "\x7b" ++ String.intercalate ", "
    (d.map (fun kv => pyQuote ++ kv.1 ++ pyQuote ++ ": " ++ reprJVal kv.2)) ++ "\x7d"

/-- Python `str.lower()` restricted to ASCII letters. -/
def lowerChar (c : Char) : Char :=
  if 65 <= c.toNat ∧ c.toNat <= 90 then Char.ofNat (c.toNat + 32) else c

/-- Python `s.lower()` on ASCII strings. -/
def pyLower (s : String) : String := String.mk (s.data.map lowerChar)

/-- First-match association-list lookup, the model of Python dict indexing
and of `dict.get(k)` returning `None` on absence. -/
def dictGet {α : Type} : List (String × α) → String → Option α
  | [], _ => none
  | kv :: rest, key => if kv.1 = key then some kv.2 else dictGet rest key

/-- `data.get(k)` as seen by the Python code: an absent key and a JSON null
value are both `None`. -/
def pyGet (d : List (String × JVal)) (k : String) : JVal :=
  (dictGet d k).getD .jnull

/-- Value of a list of decimal digit characters. -/
def digitsToNat (l : List Char) : ℕ :=
  l.foldl (fun a c => 10 * a + (c.toNat - 48)) 0

/-- Consume an optional leading sign; `true` means negative. -/
def parseSign : List Char → Bool × List Char
  | '-' :: rest => (true, rest)
  | '+' :: rest => (false, rest)
  | l => (false, l)

/-- Split a leading run of decimal digits. -/
def spanDigits (l : List Char) : List Char × List Char :=
  (l.takeWhile Char.isDigit, l.dropWhile Char.isDigit)

/-- A parsed finite decimal literal: sign, decimal significand and a power
of ten.  Its value is `± mant * 10 ^ scale`. -/
structure DecLit : Type where
  neg : Bool
  mant : ℕ
  scale : ℤ
deriving DecidableEq, Repr

/-- Syntactic phase of the `Decimal(string)` constructor on finite numeric
literals: optional sign, integer digits, optional fractional part, optional
exponent.  Returns `none` where the constructor raises `InvalidOperation`. -/
def parseDecimalRepr (s : String) : Option DecLit :=
  let sign := parseSign s.toList
  let ipart := spanDigits sign.2
  let fpart : Option (List Char) × List Char :=
    match ipart.2 with
    | '.' :: rest => ((spanDigits rest).1, (spanDigits rest).2).map some id
    | l => (none, l)
  let fracDigits := fpart.1.getD []
  if ipart.1.isEmpty ∧ fracDigits.isEmpty then none
  else
    let expo : Option ℤ :=
      match fpart.2 with
      | [] => some 0
      | c :: rest =>
        if c = 'e' ∨ c = 'E' then
          let esign := parseSign rest
          let edigits := spanDigits esign.2
          if edigits.1.isEmpty ∨ ¬ edigits.2.isEmpty then none
          else some (if esign.1 then -(digitsToNat edigits.1 : ℤ)
                     else (digitsToNat edigits.1 : ℤ))
        else none
    match expo with
    | none => none
    | some e => some ⟨sign.1, digitsToNat (ipart.1 ++ fracDigits),
                      e - (fracDigits.length : ℤ)⟩

/-- Rational value of a parsed decimal literal. -/
def DecLit.toQ (d : DecLit) : ℚ :=
  (if d.neg then -1 else 1) * (d.mant : ℚ) * (10 : ℚ) ^ d.scale

/-- Model of `Decimal(string)` on finite numeric literals, as an exact
rational value. -/
def parseDecimal (s : String) : Option ℚ :=
  (parseDecimalRepr s).map DecLit.toQ

/-- Round a rational to an integer with the `ROUND_HALF_EVEN` rule (the
default rounding of the Python `decimal` context). -/
def roundHalfEven (q : ℚ) : ℤ :=
  let f := ⌊q⌋
  let frac := q - (f : ℚ)
  if frac < 1 / 2 then f
  else if 1 / 2 < frac then f + 1
  else if f % 2 = 0 then f else f + 1

/-- `x.quantize(Decimal(10 ** -8))` with the default half-even rounding:
round to an integer multiple of `10 ^ (-8)`. -/
def quantize8 (q : ℚ) : ℚ :=
  ((roundHalfEven (q * 10 ^ 8) : ℤ) : ℚ) / 10 ^ 8

/-- Floor of the base-2 logarithm of a positive rational: the unique `e`
with `2 ^ e ≤ q < 2 ^ (e + 1)`. -/
def qlog2 (q : ℚ) : ℤ :=
  let g : ℤ := (Nat.log2 q.num.natAbs : ℤ) - (Nat.log2 q.den : ℤ)
  if (2 : ℚ) ^ (g + 1) ≤ q then g + 1
  else if (2 : ℚ) ^ g ≤ q then g
  else g - 1

/-- Correctly rounded conversion of a positive rational to a binary64 value
(53-bit significand, round-to-nearest ties-to-even). -/
def floatRoundPos (q : ℚ) : ℚ :=
  let e := qlog2 q
  ((roundHalfEven (q * (2 : ℚ) ^ ((52 : ℤ) - e)) : ℤ) : ℚ) * (2 : ℚ) ^ (e - (52 : ℤ))

/-- Model of the Python `float(x)` conversion applied to a `Decimal` in the
normal binary64 range. -/
def floatRound (q : ℚ) : ℚ :=
  if q < 0 then -(floatRoundPos (-q)) else if q = 0 then 0 else floatRoundPos q

theorem roundHalfEven_eq_low (q : ℚ) (n : ℤ) (h1 : (n : ℚ) ≤ q)
    (h2 : q < (n : ℚ) + 1 / 2) : roundHalfEven q = n := by
  have hf : ⌊q⌋ = n := Int.floor_eq_iff.2 ⟨h1, by linarith⟩
  simp only [roundHalfEven, hf]
  rw [if_pos (by linarith)]

theorem roundHalfEven_eq_high (q : ℚ) (n : ℤ) (h1 : (n : ℚ) + 1 / 2 < q)
    (h2 : q < (n : ℚ) + 1) : roundHalfEven q = n + 1 := by
  have hf : ⌊q⌋ = n := Int.floor_eq_iff.2 ⟨by linarith, by linarith⟩
  simp only [roundHalfEven, hf]
  rw [if_neg (by linarith), if_pos (by linarith)]

theorem roundHalfEven_eq_tie (q : ℚ) (n : ℤ) (h : q = (n : ℚ) + 1 / 2) :
    roundHalfEven q = if n % 2 = 0 then n else n + 1 := by
  have hf : ⌊q⌋ = n := Int.floor_eq_iff.2 ⟨by linarith, by linarith⟩
  simp only [roundHalfEven, hf]
  rw [if_neg (by linarith), if_neg (by linarith)]

theorem quantize8_eq (q : ℚ) (n : ℤ) (h : roundHalfEven (q * 10 ^ 8) = n) :
    quantize8 q = (n : ℚ) / 10 ^ 8 := by
  rw [quantize8, h]

/-- Every value produced by the binary64 conversion model is a dyadic
rational `m * 2 ^ k`: binary floating point cannot carry a factor of five
in the denominator. -/
theorem floatRound_dyadic (q : ℚ) :
    ∃ m : ℤ, ∃ k : ℤ, floatRound q = (m : ℚ) * 2 ^ k := by
  unfold floatRound floatRoundPos
  split_ifs with h1 h2
  · refine ⟨-(roundHalfEven (-q * (2 : ℚ) ^ ((52 : ℤ) - qlog2 (-q)))),
      qlog2 (-q) - 52, ?_⟩
    push_cast
    ring
  · exact ⟨0, 0, by norm_num⟩
  · exact ⟨roundHalfEven (q * (2 : ℚ) ^ ((52 : ℤ) - qlog2 q)), qlog2 q - 52, rfl⟩

/-- `1/10` is not a dyadic rational, so no binary float represents the
decimal value `0.1` exactly. -/
theorem one_tenth_not_dyadic (m k : ℤ) : (1 : ℚ) / 10 ≠ (m : ℚ) * 2 ^ k := by
  intro h
  rcases k with j | j
  · rw [Int.ofNat_eq_coe, zpow_natCast] at h
    have h' : (1 : ℤ) = m * 2 ^ j * 10 := by
      have : (1 : ℚ) = (m : ℚ) * 2 ^ j * 10 := by
        field_simp at h
        linarith
      exact_mod_cast this
    have hdvd : (10 : ℤ) ∣ 1 := ⟨m * 2 ^ j, by linarith⟩
    norm_num at hdvd
  · rw [zpow_negSucc] at h
    have h' : (2 : ℤ) ^ (j + 1) = 10 * m := by
      have h2 : ((2 : ℚ) ^ (j + 1))⁻¹ ≠ 0 := by positivity
      have : (2 : ℚ) ^ (j + 1) = 10 * m := by
        field_simp at h
        linarith
      exact_mod_cast this
    have hdvd : (5 : ℤ) ∣ 2 ^ (j + 1) := ⟨2 * m, by linarith⟩
    have hdvd' : (5 : ℕ) ∣ 2 ^ (j + 1) := by exact_mod_cast hdvd
    have := Nat.Prime.dvd_of_dvd_pow (p := 5) (by norm_num) hdvd'
    norm_num at this

/-- Failure of one CoinGecko attempt, as caught by the `except` clause of
`convert_to_crypto`.  `requestError` covers transport errors, HTTP error
statuses and non-JSON bodies (all caught as `requests.RequestException` or
`ValueError`); `missingPrice` and `invalidPrice` are the `CoinGeckoError`s
raised inside the loop; `badNumber` is the `InvalidOperation` raised by
`Decimal(str(...))` on an unparseable price. -/
inductive AttemptError : Type where
  | requestError : String → AttemptError
  | missingPrice : String → String → AttemptError
  | badNumber : String → AttemptError
  | invalidPrice : ℚ → AttemptError
deriving DecidableEq, Repr

/-- What the network produces for one GET to `/simple/price`: either a
failure (transport error, HTTP error status or non-JSON body) or a parsed
JSON object keyed by coin id and then by currency. -/
inductive GeckoResponse : Type where
  | failure : String → GeckoResponse
  | success : List (String × List (String × JVal)) → GeckoResponse

/-- Query parameters of the price request (`ids`, `vs_currencies`). -/
structure GeckoRequest : Type where
  ids : String
  vs_currencies : String
deriving DecidableEq, Repr

/-- The fixed symbol table from internal crypto symbol to CoinGecko id. -/
def CRYPTO_TO_COINGECKO_ID : List (String × String) :=
  [("btc", "bitcoin"), ("ltc", "litecoin")]

/-- Request construction of `convert_to_crypto` (lines 55-62): lowercase the
symbol, resolve it through `CRYPTO_TO_COINGECKO_ID.get(sym, sym)`, lowercase
the currency. -/
def convertRequestParams (currency crypto_symbol : String) : GeckoRequest :=
  let sym := pyLower crypto_symbol
  ⟨(dictGet CRYPTO_TO_COINGECKO_ID sym).getD sym, pyLower currency⟩

/-- Body of the `try` block for one attempt (lines 67-75): on a 2xx JSON
response, look up `payload[crypto_id][currency]`, parse it as a decimal,
reject non-positive prices, and return the quantized quotient. -/
def convertAttempt (fiat : ℚ) (currency cryptoId sym : String)
    (resp : GeckoResponse) : Except AttemptError ℚ :=
  match resp with
  | .failure e => .error (.requestError e)
  | .success payload =>
    match dictGet payload cryptoId with
    | none => .error (.missingPrice sym currency)
    | some inner =>
      match dictGet inner currency with
      | none => .error (.missingPrice sym currency)
      | some v =>
        match parseDecimal (pyStr v) with
        | none => .error (.badNumber (pyStr v))
        | some price =>
          if price ≤ 0 then .error (.invalidPrice price)
          else .ok (quantize8 (fiat / price))

instance {ε α : Type} [DecidableEq ε] [DecidableEq α] : DecidableEq (Except ε α)
  | .ok a, .ok b =>
    if h : a = b then isTrue (congrArg Except.ok h)
    else isFalse (fun hh => h (Except.ok.inj hh))
  | .ok _, .error _ => isFalse (fun hh => Except.noConfusion hh)
  | .error _, .ok _ => isFalse (fun hh => Except.noConfusion hh)
  | .error a, .error b =>
    if h : a = b then isTrue (congrArg Except.error h)
    else isFalse (fun hh => h (Except.error.inj hh))

/-- Observable outcome of one `convert_to_crypto` call: the returned value
or the final raised `CoinGeckoError` (lowercased symbol it reports, and the
last attempt error it wraps, `none` when no attempt ran), together with the
number of attempts made and the number of `time.sleep(RETRY_DELAY)` calls
executed. -/
structure ConvertRun : Type where
  result : Except (String × Option AttemptError) ℚ
  attempts : ℕ
  sleeps : ℕ
deriving DecidableEq, Repr

/-- The retry loop of lines 64-81: `remaining` attempts left, `idx` attempts
already made (each of which failed and slept once), `last` the stored
`last_error`.  A successful attempt returns at once; a failed attempt
sleeps and continues; an exhausted loop raises `CoinGeckoError` wrapping
the last error. -/
def runConvert (att : ℕ → Except AttemptError ℚ) (sym : String) :
    ℕ → ℕ → Option AttemptError → ConvertRun
  | 0, idx, last => ⟨.error ⟨sym, last⟩, idx, idx⟩
  | n + 1, idx, _ =>
    match att idx with
    | .ok v => ⟨.ok v, idx + 1, idx⟩
    | .error e => runConvert att sym n (idx + 1) (some e)

/-- One attempt of `convert_to_crypto` as a function of the attempt response,
with the request parameters it actually sends. -/
def convertAttemptOf (fiat : ℚ) (currency crypto_symbol : String)
    (resp : GeckoResponse) : Except AttemptError ℚ :=
  let req := convertRequestParams currency crypto_symbol
  convertAttempt fiat req.vs_currencies req.ids (pyLower crypto_symbol) resp

/-- `CoinGeckoClient.convert_to_crypto` (lines 52-81), with the configured
`APIConfig.MAX_RETRIES` as the `maxRetries` parameter and the network
modelled as one `GeckoResponse` per attempt index. -/
def convert_to_crypto (fiat : ℚ) (currency crypto_symbol : String)
    (maxRetries : ℕ) (responses : ℕ → GeckoResponse) : ConvertRun :=
  runConvert (fun i => convertAttemptOf fiat currency crypto_symbol (responses i))
    (pyLower crypto_symbol) maxRetries 0 none

/-- The exception kind escaping a NOWPayments client call.
`nowPaymentsError` is the wrapper error raised by the client itself;
`jsonDecodeError` models the error raised by `response.json()` on a
non-JSON 2xx body (raised outside the `try` block, hence not wrapped);
`invalidOperation` models the `decimal.InvalidOperation` raised by
`Decimal(str(...))` on an unparseable amount (also unwrapped). -/
inductive PyError : Type where
  | nowPaymentsError : String → PyError
  | jsonDecodeError : String → PyError
  | invalidOperation : String → PyError
deriving DecidableEq, Repr

/-- The `PaymentInvoice` dataclass. -/
structure PaymentInvoice : Type where
  payment_id : String
  pay_address : String
  pay_amount : ℚ
  price_amount : ℚ
  price_currency : String
  pay_currency : String
deriving DecidableEq, Repr

/-- The JSON request body built by `create_invoice` (lines 116-123).
`price_amount` holds the value of `float(price_amount)`; `order_id = none`
means the key is absent from the body. -/
structure InvoiceRequestBody : Type where
  price_amount : ℚ
  price_currency : String
  pay_currency : String
  order_description : String
  order_id : Option String
deriving DecidableEq, Repr

/-- Request-body construction of `create_invoice`: `float(price_amount)`,
lowercased currencies, and `order_id` added only when the optional argument
is truthy (present and non-empty), stringified (the identity on strings). -/
def buildInvoicePayload (price_amount : ℚ)
    (price_currency pay_currency description : String)
    (order_id : Option String) : InvoiceRequestBody :=
  ⟨floatRound price_amount, pyLower price_currency, pyLower pay_currency,
    description,
    match order_id with
    | some s => if s = "" then none else some s
    | none => none⟩

/-- What the network produces for one NOWPayments request: a transport/HTTP
failure (caught and wrapped), a 2xx response whose body is not JSON
(`response.json()` raises, uncaught), or a parsed JSON object. -/
inductive NPResponse : Type where
  | httpError : String → NPResponse
  | badJson : String → NPResponse
  | ok : List (String × JVal) → NPResponse

/-- Response handling of `create_invoice` (lines 132-147): extract
`payment_id`, `pay_address`, `pay_amount` with `data.get`, reject falsy
ids/addresses and a missing/null amount, then build the invoice, parsing
`pay_amount` and falling back to the requested `price_amount` when the
response has no `price_amount` key. -/
def parseInvoiceData (price_amount : ℚ) (price_currency pay_currency : String)
    (data : List (String × JVal)) : Except PyError PaymentInvoice :=
  let payment_id := pyGet data "payment_id"
  let pay_address := pyGet data "pay_address"
  let pay_amount := pyGet data "pay_amount"
  if payment_id.truthy = false ∨ pay_address.truthy = false ∨
      pay_amount = JVal.jnull then
    .error (.nowPaymentsError ("Unexpected NOWPayments response: " ++
      reprPayload data))
  else
    match parseDecimal (pyStr pay_amount) with
    | none => .error (.invalidOperation (pyStr pay_amount))
    | some payQ =>
      match dictGet data "price_amount" with
      | none =>
        .ok ⟨pyStr payment_id, pyStr pay_address, payQ, price_amount,
          price_currency, pay_currency⟩
      | some v =>
        match parseDecimal (pyStr v) with
        | none => .error (.invalidOperation (pyStr v))
        | some priceQ =>
          .ok ⟨pyStr payment_id, pyStr pay_address, payQ, priceQ,
            price_currency, pay_currency⟩

/-- `NowPaymentsClient.create_invoice` (lines 106-147) as a function of the
single POST response.  A transport/HTTP failure is wrapped in
`NowPaymentsError`; a non-JSON body escapes as the raw JSON decode error.
The absent-`price_amount` fallback `Decimal(str(price_amount))` round-trips
the requested decimal exactly, so it is the identity here. -/
def create_invoice (price_amount : ℚ)
    (price_currency pay_currency description : String)
    (order_id : Option String) (resp : NPResponse) :
    Except PyError PaymentInvoice :=
  let payload := buildInvoicePayload price_amount price_currency pay_currency
    description order_id
  match resp with
  | .httpError e => .error (.nowPaymentsError ("Failed to create invoice: " ++ e))
  | .badJson e => .error (.jsonDecodeError e)
  | .ok data => parseInvoiceData price_amount payload.price_currency
      payload.pay_currency data

/-- `create_invoice` against a stream of potential responses: the code
issues exactly one POST, so only the response at index 0 is consumed. -/
def create_invoice_seq (price_amount : ℚ)
    (price_currency pay_currency description : String)
    (order_id : Option String) (responses : ℕ → NPResponse) :
    Except PyError PaymentInvoice :=
  create_invoice price_amount price_currency pay_currency description
    order_id (responses 0)

/-- `NowPaymentsClient.get_payment_status` (lines 149-163) as a function of
the single GET response: wrap transport/HTTP failures, let a non-JSON body
escape raw, reject a missing or falsy `payment_status`, and return
`str(status)` otherwise. -/
def get_payment_status (payment_id : String) (resp : NPResponse) :
    Except PyError String :=
  match resp with
  | .httpError e => .error (.nowPaymentsError ("Failed to fetch payment " ++
      payment_id ++ ": " ++ e))
  | .badJson e => .error (.jsonDecodeError e)
  | .ok payload =>
    let status := pyGet payload "payment_status"
    if status.truthy = false then
      .error (.nowPaymentsError ("Payment " ++ payment_id ++
        " returned unexpected payload: " ++ reprPayload payload))
    else .ok (pyStr status)

theorem dictGet_eq_lookup (l : List (String × String)) (k : String) :
    dictGet l k = List.lookup k l := by
  induction l with
  | nil => rfl
  | cons kv rest ih =>
    by_cases h : kv.1 = k
    · simp [dictGet, List.lookup, h]
    · have h' : (k == kv.1) = false := by
        simp [Ne.symm h]
      simp [dictGet, List.lookup, h, h', ih]

/-- An exhausted retry loop: if every remaining attempt fails, the loop
consumes all of them, sleeps once per failed attempt, and raises wrapping
the error of the final attempt. -/
theorem runConvert_all_fail (att : ℕ → Except AttemptError ℚ) (sym : String)
    (es : ℕ → AttemptError) :
    ∀ (n idx : ℕ) (last : Option AttemptError),
      (∀ i, i < n → att (idx + i) = .error (es (idx + i))) →
      runConvert att sym n idx last =
        ⟨.error ⟨sym, if n = 0 then last else some (es (idx + n - 1))⟩,
          idx + n, idx + n⟩ := by
  intro n
  induction n with
  | zero =>
    intro idx last _
    simp [runConvert]
  | succ n ih =>
    intro idx last h
    have h0 : att idx = .error (es idx) := by simpa using h 0 (Nat.succ_pos n)
    have hrec := ih (idx + 1) (some (es idx)) (fun i hi => by
      have hx : idx + 1 + i = idx + (i + 1) := by omega
      rw [hx]
      exact h (i + 1) (by omega))
    have hstep : runConvert att sym (n + 1) idx last =
        runConvert att sym n (idx + 1) (some (es idx)) := by
      simp [runConvert, h0]
    rw [hstep, hrec]
    have hidx : idx + 1 + n = idx + (n + 1) := by omega
    rcases Nat.eq_zero_or_pos n with hn | hn
    · subst hn
      simp
    · have hne : ¬ n = 0 := by omega
      have h1 : idx + 1 + n - 1 = idx + n := by omega
      have h2 : idx + (n + 1) - 1 = idx + n := by omega
      simp [hne, h1, h2, hidx]

/-- A successful attempt after `k` failures: the loop returns its value at
once, having made `k + 1` attempts and slept `k` times. -/
theorem runConvert_success (att : ℕ → Except AttemptError ℚ) (sym : String)
    (v : ℚ) :
    ∀ (k n idx : ℕ) (last : Option AttemptError), k < n →
      (∀ i, i < k → ∃ e, att (idx + i) = .error e) →
      att (idx + k) = .ok v →
      runConvert att sym n idx last = ⟨.ok v, idx + k + 1, idx + k⟩ := by
  intro k
  induction k with
  | zero =>
    intro n idx last hk _ hok
    rcases n with _ | m
    · omega
    · rw [Nat.add_zero] at hok
      simp [runConvert, hok]
  | succ k ih =>
    intro n idx last hk hfail hok
    rcases n with _ | m
    · omega
    · obtain ⟨e, he⟩ := by simpa using hfail 0 (Nat.succ_pos k)
      have hrec := ih m (idx + 1) (some e) (by omega)
        (fun i hi => by
          have hx : idx + 1 + i = idx + (i + 1) := by omega
          rw [hx]
          exact hfail (i + 1) (by omega))
        (by
          have hx : idx + 1 + k = idx + (k + 1) := by omega
          rw [hx]
          exact hok)
      have hstep : runConvert att sym (m + 1) idx last =
          runConvert att sym m (idx + 1) (some e) := by
        simp [runConvert, he]
      rw [hstep, hrec]
      have h1 : idx + 1 + k + 1 = idx + (k + 1) + 1 := by omega
      have h2 : idx + 1 + k = idx + (k + 1) := by omega
      rw [h1, h2]

theorem parseDecimal_fifty_thousand : parseDecimal "50000" = some 50000 := by
  simp [parseDecimal,
    show parseDecimalRepr "50000" = some ⟨false, 50000, 0⟩ from rfl, DecLit.toQ]

theorem parseDecimal_two : parseDecimal "2" = some 2 := by
  simp [parseDecimal, show parseDecimalRepr "2" = some ⟨false, 2, 0⟩ from rfl,
    DecLit.toQ]

theorem parseDecimal_two_thousandths : parseDecimal "0.002" = some (1 / 500) := by
  simp [parseDecimal, show parseDecimalRepr "0.002" = some ⟨false, 2, -3⟩ from rfl,
    DecLit.toQ]
  norm_num

theorem quantize8_btc_scenario : quantize8 (100 / 50000) = 1 / 500 := by
  rw [quantize8_eq (100 / 50000) 200000 (by
    rw [show (100 / 50000 * 10 ^ 8 : ℚ) = ((200000 : ℤ) : ℚ) by norm_num]
    exact roundHalfEven_eq_low _ _ (le_refl _) (by norm_num))]
  norm_num

/-- C6: `convert_to_crypto` lowercases the crypto symbol and resolves it
through the fixed `CRYPTO_TO_COINGECKO_ID` table: a mapped symbol queries
the provider id recorded in the table, and any other symbol queries the
lowercased symbol itself unchanged (identity fallback); in particular
"btc" (in any case) queries "bitcoin" and "xyz" queries "xyz". -/
theorem convert_symbol_resolution (currency crypto_symbol : String) :
    (convertRequestParams currency crypto_symbol).ids =
      (List.lookup (pyLower crypto_symbol) CRYPTO_TO_COINGECKO_ID).getD
        (pyLower crypto_symbol) ∧
    (convertRequestParams currency crypto_symbol).vs_currencies =
      pyLower currency ∧
    (convertRequestParams currency "btc").ids = "bitcoin" ∧
    (convertRequestParams currency "BTC").ids = "bitcoin" ∧
    (convertRequestParams currency "xyz").ids = "xyz" := by
  refine ⟨?_, rfl, rfl, rfl, rfl⟩
  rw [convertRequestParams, dictGet_eq_lookup]

/-- C7: the request body of `create_invoice` contains the `order_id` key
iff the `order_id` argument is supplied and non-empty, in which case its
value is the (stringified) argument itself; with an absent or empty
argument the key is omitted, and the remaining body fields do not depend
on the `order_id` argument. -/
theorem create_invoice_order_id (q : ℚ) (pc yc d : String)
    (oid : Option String) (s : String) :
    (buildInvoicePayload q pc yc d (some s)).order_id =
      (if s = "" then none else some s) ∧
    (buildInvoicePayload q pc yc d none).order_id = none ∧
    (buildInvoicePayload q pc yc d oid).price_amount =
      (buildInvoicePayload q pc yc d none).price_amount ∧
    (buildInvoicePayload q pc yc d oid).price_currency =
      (buildInvoicePayload q pc yc d none).price_currency ∧
    (buildInvoicePayload q pc yc d oid).pay_currency =
      (buildInvoicePayload q pc yc d none).pay_currency ∧
    (buildInvoicePayload q pc yc d oid).order_description =
      (buildInvoicePayload q pc yc d none).order_description :=
  ⟨rfl, rfl, rfl, rfl, rfl, rfl⟩

/-- C10: a `payment_status` field that is present but falsy (empty string,
0, false or null) is treated exactly like a missing field:
`get_payment_status` raises the unexpected-payload `NowPaymentsError`
(whose message carries the payload repr) instead of returning it; a truthy
non-string value is returned converted to its Python string form. -/
theorem get_payment_status_falsy (pid : String)
    (payload : List (String × JVal)) (v : JVal)
    (hv : dictGet payload "payment_status" = some v) :
    (v.truthy = false →
      get_payment_status pid (.ok payload) =
        .error (.nowPaymentsError ("Payment " ++ pid ++
          " returned unexpected payload: " ++ reprPayload payload))) ∧
    (v.truthy = true →
      get_payment_status pid (.ok payload) = .ok (pyStr v)) := by
  constructor
  · intro ht
    simp [get_payment_status, pyGet, hv, ht]
  · intro ht
    simp [get_payment_status, pyGet, hv, ht]

theorem get_payment_status_falsy_witness :
    get_payment_status "p1" (.ok [("payment_status", .jstr "")]) =
      .error (.nowPaymentsError ("Payment " ++ "p1" ++
        " returned unexpected payload: " ++
        reprPayload [("payment_status", .jstr "")])) ∧
    get_payment_status "p2" (.ok [("payment_status", .jint 5)]) = .ok "5" :=
  ⟨(get_payment_status_falsy "p1" [("payment_status", .jstr "")]
      (.jstr "") rfl).1 rfl,
   (get_payment_status_falsy "p2" [("payment_status", .jint 5)]
      (.jint 5) rfl).2 rfl⟩

/-- C4 counterexample: a response whose `payment_status` field holds the
empty string.  `get_payment_status` does not return that exact string —
it raises the unexpected-payload error instead. -/
theorem get_payment_status_empty_cex :
    get_payment_status "p1" (.ok [("payment_status", .jstr "")]) ≠ .ok "" ∧
    get_payment_status "p1" (.ok [("payment_status", .jstr "")]) =
      .error (.nowPaymentsError ("Payment " ++ "p1" ++
        " returned unexpected payload: " ++
        reprPayload [("payment_status", .jstr "")])) :=
  ⟨by decide, rfl⟩

/-- C4 (amended): `get_payment_status` returns the exact string found in
`payment_status` verbatim whenever that string is non-empty (no
transformation, no validation against a set of recognized values), and a
missing field raises a `NowPaymentsError` whose message includes the raw
response payload; an empty-string (falsy) field is treated like a missing
field. -/
theorem get_payment_status_verbatim (pid : String)
    (payload : List (String × JVal)) (s : String) :
    (dictGet payload "payment_status" = some (.jstr s) → s ≠ "" →
      get_payment_status pid (.ok payload) = .ok s) ∧
    (dictGet payload "payment_status" = none →
      get_payment_status pid (.ok payload) =
        .error (.nowPaymentsError ("Payment " ++ pid ++
          " returned unexpected payload: " ++ reprPayload payload))) := by
  constructor
  · intro hv hs
    simp [get_payment_status, pyGet, hv, JVal.truthy, hs, pyStr]
  · intro hv
    simp [get_payment_status, pyGet, hv, JVal.truthy]

theorem get_payment_status_verbatim_witness :
    get_payment_status "p9" (.ok [("payment_status", .jstr "finished")]) =
      .ok "finished" ∧
    get_payment_status "p9" (.ok [("order", .jint 1)]) =
      .error (.nowPaymentsError ("Payment " ++ "p9" ++
        " returned unexpected payload: " ++ reprPayload [("order", .jint 1)])) :=
  ⟨(get_payment_status_verbatim "p9" [("payment_status", .jstr "finished")]
      "finished").1 rfl (by decide),
   (get_payment_status_verbatim "p9" [("order", .jint 1)] "").2 rfl⟩

/-- Response used by the C3 counterexample: all three required fields are
present, non-empty and non-null, but `pay_amount` is not numeric. -/
def nonNumericAmountData : List (String × JVal) :=
  [("payment_id", .jstr "123"), ("pay_address", .jstr "addr"),
    ("pay_amount", .jstr "abc")]

/-- C3 counterexample: an HTTP-successful JSON response with a non-empty
`payment_id`, a non-empty `pay_address` and a non-null `pay_amount` for
which `create_invoice` still returns no invoice — the non-numeric
`pay_amount` makes `Decimal(str(...))` raise `InvalidOperation`, so the
claimed "if and only if" fails. -/
theorem create_invoice_nonnumeric_cex :
    (JVal.truthy (pyGet nonNumericAmountData "payment_id") = true ∧
     JVal.truthy (pyGet nonNumericAmountData "pay_address") = true ∧
     pyGet nonNumericAmountData "pay_amount" ≠ JVal.jnull) ∧
    create_invoice 10 "usd" "btc" "d" none (.ok nonNumericAmountData) =
      .error (.invalidOperation "abc") :=
  ⟨⟨rfl, rfl, by decide⟩, rfl⟩

/-- C3 (amended): `create_invoice` returns an invoice iff the HTTP call
succeeds with a JSON body whose `payment_id` and `pay_address` are truthy
(non-empty), whose `pay_amount` is non-null AND parses as a decimal, and
whose `price_amount`, when the key is present, parses as well; a response
failing the presence checks raises the payload-describing
`NowPaymentsError`; and only the response of the single POST is ever
consumed (no retry). -/
theorem create_invoice_success_iff (q : ℚ) (pc yc d : String)
    (oid : Option String) :
    (∀ resp : NPResponse,
      (∃ inv, create_invoice q pc yc d oid resp = .ok inv) ↔
      (∃ data, resp = .ok data ∧
        JVal.truthy (pyGet data "payment_id") = true ∧
        JVal.truthy (pyGet data "pay_address") = true ∧
        pyGet data "pay_amount" ≠ JVal.jnull ∧
        (parseDecimal (pyStr (pyGet data "pay_amount"))).isSome = true ∧
        (∀ v, dictGet data "price_amount" = some v →
          (parseDecimal (pyStr v)).isSome = true))) ∧
    (∀ data, (JVal.truthy (pyGet data "payment_id") = false ∨
        JVal.truthy (pyGet data "pay_address") = false ∨
        pyGet data "pay_amount" = JVal.jnull) →
      create_invoice q pc yc d oid (.ok data) =
        .error (.nowPaymentsError ("Unexpected NOWPayments response: " ++
          reprPayload data))) ∧
    (∀ f g : ℕ → NPResponse, f 0 = g 0 →
      create_invoice_seq q pc yc d oid f = create_invoice_seq q pc yc d oid g) := by
  refine ⟨?_, ?_, ?_⟩
  · intro resp
    constructor
    · rintro ⟨inv, hinv⟩
      cases resp with
      | httpError m => simp [create_invoice] at hinv
      | badJson m => simp [create_invoice] at hinv
      | ok data =>
        refine ⟨data, rfl, ?_⟩
        simp only [create_invoice, parseInvoiceData] at hinv
        by_cases hcond : JVal.truthy (pyGet data "payment_id") = false ∨
            JVal.truthy (pyGet data "pay_address") = false ∨
            pyGet data "pay_amount" = JVal.jnull
        · rw [if_pos hcond] at hinv
          exact absurd hinv (by simp)
        · rw [if_neg hcond] at hinv
          push_neg at hcond
          obtain ⟨hc1, hc2, hc3⟩ := hcond
          rcases hpam : parseDecimal (pyStr (pyGet data "pay_amount")) with _ | q1
          · simp [hpam] at hinv
          · refine ⟨by simpa using hc1, by simpa using hc2, hc3,
              by simp [hpam], ?_⟩
            intro v hv
            rcases hpv : parseDecimal (pyStr v) with _ | q2
            · simp only [hpam, hv, hpv] at hinv
              simp at hinv
            · simp [hpv]
    · rintro ⟨data, rfl, h1, h2, h3, h4, h5⟩
      simp only [create_invoice, parseInvoiceData]
      rw [if_neg (by simp [h1, h2, h3])]
      obtain ⟨q1, hq1⟩ := Option.isSome_iff_exists.1 h4
      rcases hpr : dictGet data "price_amount" with _ | v
      · simp only [hq1, hpr]
        exact ⟨_, rfl⟩
      · obtain ⟨q2, hq2⟩ := Option.isSome_iff_exists.1 (h5 v hpr)
        simp only [hq1, hpr, hq2]
        exact ⟨_, rfl⟩
  · intro data h
    simp only [create_invoice, parseInvoiceData]
    rw [if_pos h]
  · intro f g h
    simp only [create_invoice_seq, h]

theorem create_invoice_success_iff_witness :
    create_invoice 10 "usd" "btc" "d" none (.ok [("payment_id", .jstr "123")]) =
      .error (.nowPaymentsError ("Unexpected NOWPayments response: " ++
        reprPayload [("payment_id", .jstr "123")])) ∧
    (∃ inv, create_invoice 10 "usd" "btc" "d" none
      (.ok [("payment_id", .jstr "123"), ("pay_address", .jstr "addr"),
        ("pay_amount", .jstr "0.002")]) = .ok inv) :=
  ⟨(create_invoice_success_iff 10 "usd" "btc" "d" none).2.1
      [("payment_id", .jstr "123")] (Or.inr (Or.inl rfl)),
   ((create_invoice_success_iff 10 "usd" "btc" "d" none).1
      (.ok [("payment_id", .jstr "123"), ("pay_address", .jstr "addr"),
        ("pay_amount", .jstr "0.002")])).2
      ⟨[("payment_id", .jstr "123"), ("pay_address", .jstr "addr"),
        ("pay_amount", .jstr "0.002")], rfl, rfl, rfl, by decide, rfl,
        fun v hv => by
          rw [show dictGet [("payment_id", JVal.jstr "123"),
            ("pay_address", JVal.jstr "addr"),
            ("pay_amount", JVal.jstr "0.002")] "price_amount" =
              (none : Option JVal) from rfl] at hv
          cases hv⟩⟩

/-- C5: the `price_amount` of the returned invoice falls back to the
originally requested amount exactly when the response has no
`price_amount` key, and otherwise carries the (parsed) response value. -/
theorem create_invoice_price_fallback (q : ℚ) (pc yc d : String)
    (oid : Option String) (data : List (String × JVal))
    (h1 : JVal.truthy (pyGet data "payment_id") = true)
    (h2 : JVal.truthy (pyGet data "pay_address") = true)
    (h3 : pyGet data "pay_amount" ≠ JVal.jnull)
    (payQ : ℚ)
    (hpay : parseDecimal (pyStr (pyGet data "pay_amount")) = some payQ) :
    (dictGet data "price_amount" = none →
      create_invoice q pc yc d oid (.ok data) =
        .ok ⟨pyStr (pyGet data "payment_id"), pyStr (pyGet data "pay_address"),
          payQ, q, pyLower pc, pyLower yc⟩) ∧
    (∀ v pq, dictGet data "price_amount" = some v →
      parseDecimal (pyStr v) = some pq →
      create_invoice q pc yc d oid (.ok data) =
        .ok ⟨pyStr (pyGet data "payment_id"), pyStr (pyGet data "pay_address"),
          payQ, pq, pyLower pc, pyLower yc⟩) := by
  constructor
  · intro hpr
    simp only [create_invoice, parseInvoiceData, buildInvoicePayload]
    rw [if_neg (by simp [h1, h2, h3])]
    simp only [hpay, hpr]
  · intro v pq hpr hpv
    simp only [create_invoice, parseInvoiceData, buildInvoicePayload]
    rw [if_neg (by simp [h1, h2, h3])]
    simp only [hpay, hpr, hpv]

theorem create_invoice_price_fallback_witness :
    create_invoice 100 "usd" "btc" "d" none
      (.ok [("payment_id", .jstr "123"), ("pay_address", .jstr "addr"),
        ("pay_amount", .jstr "0.002")]) =
      .ok ⟨"123", "addr", 1 / 500, 100, "usd", "btc"⟩ :=
  (create_invoice_price_fallback 100 "usd" "btc" "d" none
    [("payment_id", .jstr "123"), ("pay_address", .jstr "addr"),
      ("pay_amount", .jstr "0.002")] rfl rfl (by decide)
    (1 / 500) parseDecimal_two_thousandths).1 rfl

/-- C8 counterexample: a 2xx response whose body is not JSON makes
`get_payment_status` raise the raw JSON decode error (raised by
`response.json()` outside the `try` block), and a non-numeric `pay_amount`
makes `create_invoice` raise `decimal.InvalidOperation` — neither failure
is the `NowPaymentsError` kind. -/
theorem nowpayments_error_kind_cex :
    get_payment_status "p1" (.badJson "Expecting value") =
      .error (.jsonDecodeError "Expecting value") ∧
    create_invoice 5 "usd" "ltc" "d" none
      (.ok [("payment_id", .jstr "1"), ("pay_address", .jstr "a"),
        ("pay_amount", .jbool true)]) = .error (.invalidOperation "True") :=
  ⟨rfl, rfl⟩

/-- C8 (amended): transport/HTTP failures and invalid-payload failures of
`create_invoice` and `get_payment_status` are raised as `NowPaymentsError`
wrapping the cause, and no failure is silently swallowed; but a malformed
(non-JSON) 2xx body escapes as the raw JSON decode error, and a
non-decimal `pay_amount`/`price_amount` escapes as `InvalidOperation` —
on a parsed JSON response these are the only possible failure kinds. -/
theorem nowpayments_error_kinds (q : ℚ) (pc yc d pid m : String)
    (oid : Option String) :
    create_invoice q pc yc d oid (.httpError m) =
      .error (.nowPaymentsError ("Failed to create invoice: " ++ m)) ∧
    create_invoice q pc yc d oid (.badJson m) =
      .error (.jsonDecodeError m) ∧
    get_payment_status pid (.httpError m) =
      .error (.nowPaymentsError ("Failed to fetch payment " ++ pid ++
        ": " ++ m)) ∧
    get_payment_status pid (.badJson m) = .error (.jsonDecodeError m) ∧
    (∀ data e, create_invoice q pc yc d oid (.ok data) = .error e →
      (∃ s, e = .nowPaymentsError s) ∨ (∃ s, e = .invalidOperation s)) ∧
    (∀ data e, get_payment_status pid (.ok data) = .error e →
      ∃ s, e = .nowPaymentsError s) := by
  refine ⟨rfl, rfl, rfl, rfl, ?_, ?_⟩
  · intro data e he
    simp only [create_invoice, parseInvoiceData] at he
    by_cases hcond : JVal.truthy (pyGet data "payment_id") = false ∨
        JVal.truthy (pyGet data "pay_address") = false ∨
        pyGet data "pay_amount" = JVal.jnull
    · rw [if_pos hcond] at he
      exact Or.inl ⟨_, (Except.error.inj he).symm⟩
    · rw [if_neg hcond] at he
      rcases hpam : parseDecimal (pyStr (pyGet data "pay_amount")) with _ | q1
      · simp only [hpam] at he
        exact Or.inr ⟨_, (Except.error.inj he).symm⟩
      · rcases hpr : dictGet data "price_amount" with _ | v
        · simp only [hpam, hpr] at he
          exact absurd he (by simp)
        · rcases hpv : parseDecimal (pyStr v) with _ | q2
          · simp only [hpam, hpr, hpv] at he
            exact Or.inr ⟨_, (Except.error.inj he).symm⟩
          · simp only [hpam, hpr, hpv] at he
            exact absurd he (by simp)
  · intro data e he
    simp only [get_payment_status] at he
    by_cases hcond : JVal.truthy (pyGet data "payment_status") = false
    · rw [if_pos hcond] at he
      exact ⟨_, (Except.error.inj he).symm⟩
    · rw [if_neg hcond] at he
      exact absurd he (by simp)

theorem nowpayments_error_kinds_witness :
    create_invoice 5 "usd" "btc" "d" none (.httpError "boom") =
      .error (.nowPaymentsError ("Failed to create invoice: " ++ "boom")) ∧
    ((∃ s, PyError.invalidOperation "False" = PyError.nowPaymentsError s) ∨
     (∃ s, PyError.invalidOperation "False" = PyError.invalidOperation s)) :=
  ⟨(nowpayments_error_kinds 5 "usd" "btc" "d" "p" "boom" none).1,
   (nowpayments_error_kinds 5 "usd" "btc" "d" "p" "boom" none).2.2.2.2.1
     [("payment_id", .jstr "1"), ("pay_address", .jstr "a"),
       ("pay_amount", .jbool false)] (.invalidOperation "False") rfl⟩

/-- C1: for every positive `fiat` and a first response whose price field
parses to a strictly positive decimal `p`, `convert_to_crypto` returns
`quantize8 (fiat / p)` — the quotient quantized (half-even) to exactly 8
fractional decimal digits, an integer multiple of `10 ^ (-8)`. -/
theorem convert_returns_quantized (fiat p : ℚ) (cur sym : String) (n : ℕ)
    (responses : ℕ → GeckoResponse)
    (body : List (String × List (String × JVal)))
    (inner : List (String × JVal)) (v : JVal)
    (hn : 0 < n) (_hfiat : 0 < fiat)
    (hresp : responses 0 = .success body)
    (hb : dictGet body (convertRequestParams cur sym).ids = some inner)
    (hi : dictGet inner (convertRequestParams cur sym).vs_currencies = some v)
    (hp : parseDecimal (pyStr v) = some p) (hpos : 0 < p) :
    (convert_to_crypto fiat cur sym n responses).result =
      .ok (quantize8 (fiat / p)) ∧
    ∃ m : ℤ, quantize8 (fiat / p) = (m : ℚ) / 10 ^ 8 := by
  constructor
  · have hatt : convertAttemptOf fiat cur sym (responses 0) =
        .ok (quantize8 (fiat / p)) := by
      rw [hresp]
      simp only [convertAttemptOf, convertAttempt, hb, hi, hp]
      rw [if_neg (not_le.mpr hpos)]
    have hrun := runConvert_success
      (fun i => convertAttemptOf fiat cur sym (responses i))
      (pyLower sym) (quantize8 (fiat / p)) 0 n 0 none hn
      (fun i hlt => absurd hlt (by omega)) (by simpa using hatt)
    rw [convert_to_crypto, hrun]
  · exact ⟨roundHalfEven (fiat / p * 10 ^ 8), rfl⟩

theorem convert_returns_quantized_witness :
    (convert_to_crypto 100 "usd" "btc" 3
      (fun _ => .success [("bitcoin", [("usd", .jstr "50000")])])).result =
      .ok (1 / 500) := by
  have h := convert_returns_quantized 100 50000 "usd" "btc" 3
    (fun _ => .success [("bitcoin", [("usd", .jstr "50000")])])
    [("bitcoin", [("usd", .jstr "50000")])] [("usd", .jstr "50000")]
    (.jstr "50000") (by norm_num) (by norm_num) rfl rfl rfl
    parseDecimal_fifty_thousand (by norm_num)
  rw [h.1, quantize8_btc_scenario]

/-- C2 counterexample: with a retry budget of 2 and every attempt failing,
`convert_to_crypto` sleeps twice — once after each failed attempt,
including one after the final attempt right before raising — not only in
the single gap between the two consecutive attempts. -/
theorem convert_sleep_after_last_cex :
    (convert_to_crypto 100 "usd" "btc" 2 (fun _ => .failure "boom")).attempts
      = 2 ∧
    (convert_to_crypto 100 "usd" "btc" 2 (fun _ => .failure "boom")).sleeps
      = 2 ∧
    (convert_to_crypto 100 "usd" "btc" 2 (fun _ => .failure "boom")).sleeps ≠
      (convert_to_crypto 100 "usd" "btc" 2
        (fun _ => .failure "boom")).attempts - 1 :=
  ⟨rfl, rfl, by decide⟩

/-- C2 (amended): when every attempt fails, `convert_to_crypto` makes
exactly `maxRetries` attempts and sleeps the configured delay once after
every failed attempt — `maxRetries` sleeps in total, one of them after the
final attempt, before raising the price-lookup error that wraps the error
of the last attempt; a successful attempt returns immediately: `k` prior
failures give `k + 1` attempts and `k` sleeps. -/
theorem convert_retry_schedule (fiat : ℚ) (cur sym : String) (n k : ℕ)
    (responses : ℕ → GeckoResponse) (es : ℕ → AttemptError) (v : ℚ) :
    ((∀ i, i < n → convertAttemptOf fiat cur sym (responses i) = .error (es i)) →
      0 < n →
      convert_to_crypto fiat cur sym n responses =
        ⟨.error ⟨pyLower sym, some (es (n - 1))⟩, n, n⟩) ∧
    (k < n →
      (∀ i, i < k → ∃ e, convertAttemptOf fiat cur sym (responses i) = .error e) →
      convertAttemptOf fiat cur sym (responses k) = .ok v →
      convert_to_crypto fiat cur sym n responses = ⟨.ok v, k + 1, k⟩) := by
  constructor
  · intro hfail hn
    have hrun := runConvert_all_fail
      (fun i => convertAttemptOf fiat cur sym (responses i))
      (pyLower sym) (fun i => es i) n 0 none
      (fun i hlt => by simpa using hfail i (by omega))
    rw [convert_to_crypto, hrun]
    have : ¬ n = 0 := by omega
    simp [this]
  · intro hk hfail hok
    have hrun := runConvert_success
      (fun i => convertAttemptOf fiat cur sym (responses i))
      (pyLower sym) v k n 0 none hk
      (fun i hlt => by simpa using hfail i hlt) (by simpa using hok)
    rw [convert_to_crypto, hrun]
    simp

theorem convert_retry_schedule_witness :
    convert_to_crypto 100 "usd" "btc" 2 (fun _ => .failure "boom") =
      ⟨.error ⟨"btc", some (.requestError "boom")⟩, 2, 2⟩ ∧
    convert_to_crypto 7 "usd" "xyz" 3
      (fun i => if i = 0 then .failure "rate limited"
        else .success [("xyz", [("usd", .jstr "2")])]) =
      ⟨.ok (quantize8 (7 / 2)), 2, 1⟩ := by
  constructor
  · exact (convert_retry_schedule 100 "usd" "btc" 2 0
      (fun _ => .failure "boom") (fun _ => .requestError "boom") 0).1
      (fun i _ => rfl) (by norm_num)
  · exact (convert_retry_schedule 7 "usd" "xyz" 3 1
      (fun i => if i = 0 then .failure "rate limited"
        else .success [("xyz", [("usd", .jstr "2")])])
      (fun _ => .requestError "rate limited") (quantize8 (7 / 2))).2
      (by norm_num)
      (fun i hlt => ⟨.requestError "rate limited", by
        have : i = 0 := by omega
        subst this
        rfl⟩)
      (by
        simp only [convertAttemptOf, convertAttempt]
        rw [show (if 1 = 0 then GeckoResponse.failure "rate limited"
          else GeckoResponse.success [("xyz", [("usd", JVal.jstr "2")])]) =
            GeckoResponse.success [("xyz", [("usd", JVal.jstr "2")])] from rfl]
        simp only [show dictGet [("xyz", [("usd", JVal.jstr "2")])]
            (convertRequestParams "usd" "xyz").ids =
            some [("usd", JVal.jstr "2")] from rfl,
          show dictGet [("usd", JVal.jstr "2")]
            (convertRequestParams "usd" "xyz").vs_currencies =
            some (JVal.jstr "2") from rfl,
          show pyStr (JVal.jstr "2") = "2" from rfl, parseDecimal_two]
        rw [if_neg (by norm_num)])

/-- C9 counterexample: the value `create_invoice` places under
`price_amount` in the request body is `float(price_amount)` — a binary64
dyadic rational — so for the exact decimal 0.1 the transmitted value is
not the exact decimal value of the argument. -/
theorem invoice_body_float_cex :
    (buildInvoicePayload (1 / 10) "usd" "btc" "d" none).price_amount ≠
      1 / 10 := by
  intro h
  have h' : floatRound (1 / 10) = 1 / 10 := h
  obtain ⟨m, k, hmk⟩ := floatRound_dyadic (1 / 10)
  rw [h'] at hmk
  exact one_tenth_not_dyadic m k hmk

/-- C9 (amended): arithmetic on amounts inside the module is exact decimal
arithmetic and the 8-digit quantization follows the single fixed
round-half-even rule (witnessed by the tie cases 0.000000005 → 0 and
0.000000015 → 0.00000002), but the `price_amount` transmitted in the
invoice request body is the binary64 `float` conversion of the argument —
always a dyadic rational `m * 2 ^ k`, hence not the exact decimal value
whenever that value is not dyadic (e.g. 0.1). -/
theorem invoice_body_uses_float (q : ℚ) (pc yc d : String)
    (oid : Option String) :
    (buildInvoicePayload q pc yc d oid).price_amount = floatRound q ∧
    (∃ m : ℤ, ∃ k : ℤ,
      (buildInvoicePayload q pc yc d oid).price_amount = (m : ℚ) * 2 ^ k) ∧
    quantize8 (1 / 200000000) = 0 ∧
    quantize8 (3 / 200000000) = 1 / 50000000 := by
  refine ⟨rfl, floatRound_dyadic q, ?_, ?_⟩
  · have t1 : roundHalfEven ((1 / 200000000 : ℚ) * 10 ^ 8) = 0 := by
      rw [show ((1 : ℚ) / 200000000) * 10 ^ 8 = ((0 : ℤ) : ℚ) + 1 / 2 by
        norm_num]
      rw [roundHalfEven_eq_tie _ 0 rfl]
      norm_num
    rw [quantize8_eq _ 0 t1]
    norm_num
  · have t2 : roundHalfEven ((3 / 200000000 : ℚ) * 10 ^ 8) = 2 := by
      rw [show ((3 : ℚ) / 200000000) * 10 ^ 8 = ((1 : ℤ) : ℚ) + 1 / 2 by
        norm_num]
      rw [roundHalfEven_eq_tie _ 1 rfl]
      norm_num
    rw [quantize8_eq _ 2 t2]
    norm_num
